import Mathlib

/-!
Verification of the zhimo-restructure document-processing backend.

This file gives a shallow embedding, in Lean 4, of the parts of the
JavaScript source that the specification talks about:

* the PDF heading heuristics of `DocumentService.isPotentialTitle` and
  `DocumentService.determineTitleLevel`;
* the Mermaid diagram validator `AIService.validateMermaidSyntax` and
  `AIService.isValidMindmapNode`;
* the Document record, its `updateProcessingStatus` method and the
  status updates performed by `FileExtractService.extractToMarkdown`,
  `DocumentService.parseAndConvertDocument` and
  `DocumentService.uploadDocument`;
* the Summary and Concept persistence logic
  (`generateAndSaveSummary`, `extractAndSaveConcepts`) together with the
  unique compound indexes of their schemas;
* the `reprocessDocument` controller handler and the upload route's
  multer file filter together with `_getFormatFromMimeType`.

JavaScript strings are modelled as Lean strings (the inputs of interest
are ASCII and BMP CJK text, where JavaScript's UTF-16 `length` agrees
with the code-point count), JavaScript `null`/`undefined` as `Option`,
thrown exceptions as `Except`, and the MongoDB collections as Lean lists
with the unique-index check made explicit at save time.
-/

/-- Whitespace test matching the JavaScript `\s` class on the character
set that occurs in the repository's inputs (space, tab, CR, LF, FF, VT). -/
def isSpaceChar (c : Char) : Bool :=
  c = ' ' || c = '\t' || c = '\n' || c = '\x0d' || c = '\x0c' || c = '\x0b'

/-- Does the character list `s` start with the character list `pat`? -/
def listStarts : List Char → List Char → Bool
  | _, [] => true
  | [], _ :: _ => false
  | a :: s, b :: t => a = b && listStarts s t

/-- Does the character list `s` contain `pat` as a contiguous run?
Models JavaScript `String.prototype.includes`. -/
def listHasSub : List Char → List Char → Bool
  | [], pat => pat.isEmpty
  | a :: s, pat => listStarts (a :: s) pat || listHasSub s pat

/-- JavaScript `s.startsWith(p)`. -/
def strStarts (s p : String) : Bool :=
  listStarts s.toList p.toList

/-- JavaScript `s.includes(p)`. -/
def strHasSub (s p : String) : Bool :=
  listHasSub s.toList p.toList

/-- JavaScript `s.length` (code points; equal to UTF-16 units on the
BMP inputs the code handles). -/
def jsLen (s : String) : Nat :=
  s.toList.length

/-- JavaScript `s.trim()`. -/
def jsTrim (s : String) : String :=
  String.mk (List.rdropWhile isSpaceChar (s.toList.dropWhile isSpaceChar))

/-- JavaScript `s.toUpperCase()` restricted to ASCII letters; other
characters (digits, punctuation, CJK) are fixed points, as in JS. -/
def jsToUpper (s : String) : String :=
  String.mk (s.toList.map Char.toUpper)

/-- JavaScript `s.toLowerCase()` restricted to ASCII letters. -/
def jsToLower (s : String) : String :=
  String.mk (s.toList.map Char.toLower)

/-- Line `i` of the split document, or `""` out of range (the JS code
only indexes in range, guarded by short-circuit bounds tests). -/
def lineAt (lines : List String) (i : Nat) : String :=
  (lines.get? i).getD ""

/-- Leading decimal-digit run of a character list. -/
def leadingDigits (cs : List Char) : List Char :=
  cs.takeWhile Char.isDigit

/-- Numeric value of a digit run (the `parseInt` of the regex capture). -/
def digitsVal (cs : List Char) : Nat :=
  cs.foldl (fun n c => 10 * n + (c.toNat - '0'.toNat)) 0

/-- Test for the regex `^\d+[\.\s]` of `isPotentialTitle`: one or more
digits followed by a dot or a whitespace character. -/
def startsNumDotOrSpace (s : String) : Bool :=
  let cs := s.toList
  let ds := leadingDigits cs
  !ds.isEmpty &&
    (match cs.drop ds.length with
     | [] => false
     | c :: _ => c = '.' || isSpaceChar c)

/-- Test for the regex `^(\d+)\.(\d+)` of `determineTitleLevel`: digits,
a dot, then at least one digit. -/
def startsSubNumber (s : String) : Bool :=
  let cs := s.toList
  let ds := leadingDigits cs
  !ds.isEmpty &&
    (match cs.drop ds.length with
     | '.' :: c :: _ => c.isDigit
     | _ => false)

/-- Value of the first regex capture of `^(\d+)[\.\s]` when the pattern
matches. -/
def leadingNumber (s : String) : Option Nat :=
  if startsNumDotOrSpace s then some (digitsVal (leadingDigits s.toList)) else none

/-- The heading keyword list of `DocumentService.isPotentialTitle`. -/
def titleKeywords : List String :=
  ["章", "节", "部分", "Chapter", "Section", "Part", "第", "概述", "介绍", "总结"]

/-- Blank-or-start test `index === 0 || !lines[index - 1].trim()`. -/
def prevLineEmpty (lines : List String) (index : Nat) : Bool :=
  index == 0 || jsTrim (lineAt lines (index - 1)) == ""

/-- Blank-or-end test `index === lines.length - 1 || !lines[index + 1].trim()`. -/
def nextLineEmpty (lines : List String) (index : Nat) : Bool :=
  index == lines.length - 1 || jsTrim (lineAt lines (index + 1)) == ""

/-- The all-caps test of `isPotentialTitle`: the line is fixed by
`toUpperCase` and contains at least one ASCII capital letter. -/
def jsAllUpper (line : String) : Bool :=
  line == jsToUpper line && line.toList.any Char.isUpper

/-- Embedding of `DocumentService.isPotentialTitle` (part_014 of the
source, lines 1012-1038), mirroring its early returns and final
four-way disjunction. -/
def isPotentialTitle (line : String) (lines : List String) (index : Nat) : Bool :=
  if jsTrim line == "" then false
  else if 100 < jsLen line then false
  else
    let isAllUpperCase := jsAllUpper line
    let startsWithNumber := startsNumDotOrSpace line
    let prevEmpty := prevLineEmpty lines index
    let nextEmpty := nextLineEmpty lines index
    let containsTitleKeyword := titleKeywords.any (fun k => strHasSub line k)
    (isAllUpperCase && prevEmpty) ||
      startsWithNumber ||
      (containsTitleKeyword && jsLen line < 50) ||
      (prevEmpty && nextEmpty && jsLen line < 80)

/-- Embedding of `DocumentService.determineTitleLevel` (part_014 of the
source, lines 1043-1072). The positional test `index < lines.length * 0.1`
is modelled exactly as `10 * index < lines.length`. -/
def determineTitleLevel (line : String) (lines : List String) (index : Nat) : Nat :=
  if startsSubNumber line then 2
  else
    match leadingNumber line with
    | some n => if n ≤ 10 then 1 else 2
    | none =>
      if strHasSub line "第" && (strHasSub line "章" || strHasSub line "节") then
        if strHasSub line "章" then 1 else 2
      else if strHasSub (jsToLower line) "chapter" then 1
      else if strHasSub (jsToLower line) "section" then 2
      else if 10 * index < lines.length then 1
      else if jsLen line < 30 then 2
      else 3

/-- The heading rule exactly as the specification sentence states it
(claim C7): all-capitals flanked by blank lines on both sides, or a
decimal numbering pattern `N.` / `N.M`, or a chapter/section keyword
under the length threshold, or short and isolated. -/
def specHeadingClaim (line : String) (lines : List String) (index : Nat) : Bool :=
  let entirelyUpper := !line.toList.isEmpty && line.toList.all Char.isUpper
  let flanked := prevLineEmpty lines index && nextLineEmpty lines index
  let decimalNumbering :=
    let cs := line.toList
    let ds := leadingDigits cs
    !ds.isEmpty &&
      (match cs.drop ds.length with
       | '.' :: _ => true
       | _ => false)
  let keyword := titleKeywords.any (fun k => strHasSub line k)
  (entirelyUpper && flanked) ||
    decimalNumbering ||
    (keyword && jsLen line < 50) ||
    (flanked && jsLen line < 80)

/-- The heading rule amended to what the code implements: lines of more
than 100 characters or blank after trimming are never headings; an
all-capitals line needs only a preceding blank line (or the document
start); the numbering pattern is digits followed by a dot or a
whitespace character; the keyword and short-isolated disjuncts are as
the specification states them. -/
def specHeadingAmended (line : String) (lines : List String) (index : Nat) : Bool :=
  jsTrim line != "" && jsLen line ≤ 100 &&
    (jsAllUpper line && prevLineEmpty lines index ||
      startsNumDotOrSpace line ||
      titleKeywords.any (fun k => strHasSub line k) && jsLen line < 50 ||
      prevLineEmpty lines index && nextLineEmpty lines index && jsLen line < 80)

/-- The heading-level rule exactly as the specification sentence states
it (claim C8): sub-numbering, top-level numbering with the N ≤ 10 split,
chapter/section keywords, the first-10% positional rule, and otherwise
level 3 — with no further case. -/
def specLevelClaim (line : String) (lines : List String) (index : Nat) : Nat :=
  if startsSubNumber line then 2
  else
    match leadingNumber line with
    | some n => if n ≤ 10 then 1 else 2
    | none =>
      if strHasSub line "第" && (strHasSub line "章" || strHasSub line "节") then
        if strHasSub line "章" then 1 else 2
      else if strHasSub (jsToLower line) "chapter" then 1
      else if strHasSub (jsToLower line) "section" then 2
      else if 10 * index < lines.length then 1
      else 3

/-- Classification of a heading line by the first applicable cue, in
the priority order the code tests them. -/
inductive HeadingCue where
  | subNumbered
  | topNumbered (n : Nat)
  | zhChapter
  | zhSection
  | enChapter
  | enSection
  | earlyPosition
  | shortLine
  | plain
deriving DecidableEq

/-- First applicable cue of a heading line, in the code's test order:
sub-numbering, top-level numbering, Chinese chapter/section marker,
English chapter/section keyword, position in the first tenth of the
document, short line, nothing. -/
def headingCue (line : String) (lines : List String) (index : Nat) : HeadingCue :=
  if startsSubNumber line then .subNumbered
  else
    match leadingNumber line with
    | some n => .topNumbered n
    | none =>
      if strHasSub line "第" && (strHasSub line "章" || strHasSub line "节") then
        if strHasSub line "章" then .zhChapter else .zhSection
      else if strHasSub (jsToLower line) "chapter" then .enChapter
      else if strHasSub (jsToLower line) "section" then .enSection
      else if 10 * index < lines.length then .earlyPosition
      else if jsLen line < 30 then .shortLine
      else .plain

/-- Heading level assigned to each cue. The `shortLine` case — level 2
for an uncued line shorter than 30 characters — is the rule the
specification sentence omits. -/
def cueLevel : HeadingCue → Nat
  | .subNumbered => 2
  | .topNumbered n => if n ≤ 10 then 1 else 2
  | .zhChapter => 1
  | .zhSection => 2
  | .enChapter => 1
  | .enSection => 2
  | .earlyPosition => 1
  | .shortLine => 2
  | .plain => 3

/-- The heading-level rule amended to what the code implements: the
specification's rules in their stated order, plus the omitted rule that
an otherwise-uncued line shorter than 30 characters gets level 2 before
the level-3 default applies. -/
def specLevelAmended (line : String) (lines : List String) (index : Nat) : Nat :=
  cueLevel (headingCue line lines index)

/-- Split a character list at every newline, keeping empty segments,
like JavaScript `split('\n')`. -/
def splitNewlineAux : List Char → List (List Char)
  | [] => [[]]
  | c :: rest =>
    if c = '\n' then [] :: splitNewlineAux rest
    else
      match splitNewlineAux rest with
      | [] => [[c]]
      | h :: t => (c :: h) :: t

/-- JavaScript `s.split('\n')`. -/
def jsSplitLines (s : String) : List String :=
  (splitNewlineAux s.toList).map String.mk

/-- The diagram-type list of `AIService.validateMermaidSyntax`. -/
def mermaidValidTypes : List String :=
  ["mindmap", "graph", "flowchart", "gitgraph", "journey", "gantt", "pie", "quadrantChart"]

/-- The characters rejected inside a mindmap node by
`AIService.isValidMindmapNode`. -/
def mindmapBadChars : List Char :=
  ['<', '>', '\x7b', '\x7d', '[', ']', '(', ')', '|']

/-- The validator's working list: the input split on newlines with the
blank lines removed, per `lines = mermaidCode.split('\n').filter(...)`. -/
def nonBlankLines (code : String) : List String :=
  (jsSplitLines code).filter (fun l => jsTrim l != "")

/-- Embedding of `AIService.isValidMindmapNode` (src/services/AIService.js,
lines 403-425): the trimmed content must be non-empty and contain none of
the rejected characters. The indentation computed by the JS function is
never used. -/
def isValidMindmapNode (line : String) : Bool :=
  let content := jsTrim line
  content != "" && mindmapBadChars.all (fun c => !(content.toList.contains c))

/-- Embedding of `AIService.validateMermaidSyntax`
(src/services/AIService.js, lines 362-396), mirroring its early
returns: unrecognized first line, a bad mindmap node line, or fewer
than two non-blank lines each yield `false`. -/
def validateMermaidSyntax (code : String) : Bool :=
  match nonBlankLines code with
  | [] => false
  | first :: rest =>
    let firstLine := jsTrim first
    if !(mermaidValidTypes.any (fun t => strStarts firstLine t)) then false
    else if strStarts firstLine "mindmap" && !(rest.all (fun l => isValidMindmapNode (jsTrim l)))
      then false
    else if (first :: rest).length < 2 then false
    else true

/-- Leading-whitespace count of a line. -/
def leadingWS (l : String) : Nat :=
  (l.toList.takeWhile isSpaceChar).length

/-- One concrete reading of the claim's "uses consistent
leading-whitespace indentation to denote nesting depth": the
indentation is a whole number of the two-space steps that the code's
own mindmap prompt documents. The counterexample below does not depend
on this choice, because its diagram is not a mindmap. -/
def specConsistentIndent (l : String) : Bool :=
  leadingWS l % 2 == 0

/-- The bracket, brace, parenthesis and pipe characters named by the
claim. -/
def claimBracketChars : List Char :=
  ['\x7b', '\x7d', '[', ']', '(', ')', '|']

/-- The validity rule exactly as the specification states it (claim
C9): the first non-blank line declares one of the fixed diagram types,
and when that type is the mindmap type, every subsequent non-blank line
uses consistent indentation and has no bracket-like character in its
label. -/
def specDiagramClaim (code : String) : Bool :=
  match nonBlankLines code with
  | [] => false
  | first :: rest =>
    mermaidValidTypes.any (fun t => strStarts (jsTrim first) t) &&
      (!(strStarts (jsTrim first) "mindmap") ||
        rest.all (fun l => specConsistentIndent l &&
          claimBracketChars.all (fun c => !((jsTrim l).toList.contains c))))

/-- The validity rule amended to what the code implements: the diagram
must have at least two non-blank lines; its first non-blank line,
trimmed, must start with one of the fixed diagram types; and when it
starts with the mindmap type, every subsequent non-blank line must
contain none of the angle-bracket, brace, square-bracket, parenthesis
or pipe characters. Indentation is never checked. -/
def specDiagramAmended (code : String) : Bool :=
  2 ≤ (nonBlankLines code).length &&
    (match nonBlankLines code with
     | [] => false
     | first :: rest =>
       mermaidValidTypes.any (fun t => strStarts (jsTrim first) t) &&
         (!(strStarts (jsTrim first) "mindmap") ||
           rest.all (fun l => mindmapBadChars.all (fun c => !((jsTrim l).toList.contains c)))))

/-- The four values of the `processingStatus` schema enum. -/
inductive ProcStatus where
  | pending
  | processing
  | completed
  | failed
deriving DecidableEq

/-- The Document record fields the specification's claims mention
(documentSchema, part_011 of the source, lines 3-115), with the
schema's defaults reflected in `freshDocument` below. -/
structure DocumentRecord where
  title : String
  originalFormat : String
  markdownContent : String
  restructuredContent : Option String
  processingStatus : ProcStatus
  processingError : Option String
  metadataUrl : Option String
  isDeleted : Bool
deriving DecidableEq

/-- A record as the schema defaults create it. -/
def freshDocument : DocumentRecord :=
  { title := "doc"
    originalFormat := "pdf"
    markdownContent := ""
    restructuredContent := none
    processingStatus := ProcStatus.pending
    processingError := none
    metadataUrl := none
    isDeleted := false }

/-- Embedding of `documentSchema.methods.updateProcessingStatus`
(part_011, lines 153-161): sets the status, and sets `processingError`
to the error argument when it is truthy and to null otherwise — also
when the new status is `failed`. -/
def updateProcessingStatus (d : DocumentRecord) (status : ProcStatus)
    (error : Option String) : DocumentRecord :=
  { d with
    processingStatus := status
    processingError :=
      match error with
      | some e => if e = "" then none else some e
      | none => none }

/-- The invariant claimed for Document records: extracted text
non-empty exactly on `completed`, and `processingError` non-null
exactly on `failed`. -/
def documentInvariant (d : DocumentRecord) : Prop :=
  (d.markdownContent ≠ "" ↔ d.processingStatus = ProcStatus.completed) ∧
    (d.processingError ≠ none ↔ d.processingStatus = ProcStatus.failed)

instance (d : DocumentRecord) : Decidable (documentInvariant d) := by
  unfold documentInvariant
  infer_instance

deriving instance DecidableEq for Except

/-- The MIME type of .docx files. -/
def docxMime : String :=
  "application/vnd.openxmlformats-officedocument.wordprocessingml.document"

/-- The MIME type of .pptx files. -/
def pptxMime : String :=
  "application/vnd.openxmlformats-officedocument.presentationml.presentation"

/-- The per-MIME-type switch of `FileExtractService.extractToMarkdown`
(src/services/FileExtractService.js, lines 23-37): PDF goes through
pdf-parse (outcome abstracted as `pdfResult`), Word types throw the
unimplemented placeholder, text/plain decodes the buffer, and any other
type throws the unsupported-type error. -/
def fileExtractOutcome (mimeType : String) (fileText : String)
    (pdfResult : Except String String) : Except String String :=
  if mimeType = "application/pdf" then pdfResult
  else if mimeType = docxMime || mimeType = "application/msword" then
    Except.error "Word文档解析功能待实现"
  else if mimeType = "text/plain" then Except.ok fileText
  else Except.error ("不支持的文件类型: " ++ mimeType)

/-- The record writes of `FileExtractService.extractToMarkdown`
(lines 39-57): on success it stores the markdown and sets `completed`,
leaving `processingError` untouched; on failure it sets `failed` and
stores the error message, leaving `markdownContent` untouched. -/
def extractToMarkdownUpdate (d : DocumentRecord)
    (outcome : Except String String) : DocumentRecord :=
  match outcome with
  | Except.ok content =>
    { d with markdownContent := content, processingStatus := ProcStatus.completed }
  | Except.error msg =>
    { d with processingStatus := ProcStatus.failed, processingError := some msg }

/-- A multer upload file as the upload handler receives it. -/
structure UploadFile where
  originalname : String
  mimetype : String
  size : Nat
deriving DecidableEq

/-- The 50MB default of `MAX_FILE_SIZE`. -/
def maxFileSize : Nat := 50 * 1024 * 1024

/-- The supported-format table of the live DocumentService (part_014 of
the source, constructor): MIME type to `originalFormat` value. -/
def supportedFormats : List (String × String) :=
  [("application/pdf", "pdf"),
   (docxMime, "docx"),
   ("application/msword", "docx"),
   (pptxMime, "pptx"),
   ("application/vnd.ms-powerpoint", "pptx"),
   ("image/jpeg", "image"),
   ("image/jpg", "image"),
   ("image/png", "image"),
   ("image/gif", "image"),
   ("image/bmp", "image"),
   ("image/webp", "image")]

/-- Lookup in the supported-format table. -/
def lookupFormat (mime : String) : Option String :=
  (supportedFormats.find? (fun p => p.1 == mime)).map Prod.snd

/-- Result of `DocumentService.validateFile`. -/
structure FileValidation where
  isValid : Bool
  format : Option String
  mimeType : String
deriving DecidableEq

/-- Embedding of `DocumentService.validateFile` (part_014 of the
source, lines 493-518): size within the limit, MIME type in the
supported table, file name non-blank. The model takes the MIME type
from the multer file object, which is always set on the claims'
inputs. -/
def validateFile (file : UploadFile) : FileValidation :=
  { isValid :=
      decide (file.size ≤ maxFileSize) && (lookupFormat file.mimetype).isSome &&
        (jsTrim file.originalname != "")
    format := lookupFormat file.mimetype
    mimeType := file.mimetype }

/-- The per-format switch of `DocumentService.parseAndConvertDocument`
(part_014 of the source, lines 1159-1181): pdf goes through pdf-parse
and the markdown conversion (outcome abstracted as `pdfMarkdown`), url
produces the fixed link page, anything else throws the
unsupported-format error. -/
def parseExtraction (d : DocumentRecord)
    (pdfMarkdown : Except String String) : Except String String :=
  if d.originalFormat = "pdf" then pdfMarkdown
  else if d.originalFormat = "url" then
    Except.ok ("# " ++ d.title ++ "\n\n**URL**: " ++ (d.metadataUrl.getD "") ++
      "\n\n*此文档为网页链接，内容解析功能将在后续版本中提供。*")
  else Except.error ("暂不支持 " ++ d.originalFormat ++ " 格式的解析")

/-- Embedding of `DocumentService.parseAndConvertDocument` (part_014 of
the source, lines 1135-1211) as a state transformer on the record: set
`processing`, run the extraction, then either store the markdown and
flip to `completed` (via `updateProcessingStatus`, which also nulls the
error) or record the failure and rethrow. Returns the stored record
and the call's outcome. -/
def parseAndConvertDocument (d : DocumentRecord)
    (pdfMarkdown : Except String String) : DocumentRecord × Except String Unit :=
  let d1 := updateProcessingStatus d ProcStatus.processing none
  match parseExtraction d1 pdfMarkdown with
  | Except.ok content =>
    (updateProcessingStatus { d1 with markdownContent := content }
      ProcStatus.completed none, Except.ok ())
  | Except.error msg =>
    (updateProcessingStatus d1 ProcStatus.failed (some msg), Except.error msg)

/-- The record the live `DocumentService.uploadDocument` creates before
parsing (part_014 of the source, lines 614-632): schema defaults plus
the validated format, in status `processing`. -/
def uploadInitialRecord (file : UploadFile) : DocumentRecord :=
  { title := file.originalname
    originalFormat := (validateFile file).format.getD "unknown"
    markdownContent := ""
    restructuredContent := none
    processingStatus := ProcStatus.processing
    processingError := none
    metadataUrl := none
    isDeleted := false }

/-- Embedding of the live `DocumentService.uploadDocument` (part_014 of
the source, lines 600-658): validate, store the blob, create the record
in status `processing`, then synchronously await
`parseAndConvertDocument` — whose failure is caught and recorded on the
record — and return the re-fetched record. -/
def uploadDocument (file : UploadFile)
    (pdfMarkdown : Except String String) : Except String DocumentRecord :=
  let v := validateFile file
  if !v.isValid then Except.error "文档验证失败"
  else
    let step := parseAndConvertDocument (uploadInitialRecord file) pdfMarkdown
    match step.2 with
    | Except.ok _ => Except.ok step.1
    | Except.error msg =>
      Except.ok (updateProcessingStatus step.1 ProcStatus.failed (some msg))

/-- The HTTP response of `DocumentController.uploadDocument` (part_010
of the source, lines 371-416): 201 with the service's record and a
hardcoded `processingStatus: 'pending'` field beside it, or 500 when
the service throws. -/
structure HttpUploadResponse where
  status : Nat
  document : Option DocumentRecord
  reportedProcessingStatus : Option String
deriving DecidableEq

/-- The upload route handler. -/
def uploadDocumentHandler (file : UploadFile)
    (pdfMarkdown : Except String String) : HttpUploadResponse :=
  match uploadDocument file pdfMarkdown with
  | Except.ok d =>
    { status := 201, document := some d, reportedProcessingStatus := some "pending" }
  | Except.error _ =>
    { status := 500, document := none, reportedProcessingStatus := none }

/-- A concrete well-formed PDF upload. -/
def pdfFile : UploadFile :=
  { originalname := "report.pdf", mimetype := "application/pdf", size := 1024 }

/-- Result of the reprocess route: HTTP status, the stored record, and
how many extraction attempts the handler ran. -/
structure ReprocessResult where
  httpStatus : Nat
  document : DocumentRecord
  extractionRuns : Nat
deriving DecidableEq

/-- Embedding of `DocumentController.reprocessDocument` (part_010 of
the source, lines 700-732) for a record the caller owns: answer 400
without touching the record when it is currently `processing`;
otherwise run `parseAndConvertDocument` exactly once, answering 200 on
success; on a repeat failure the thrown parse error is mapped to 404
only when its message carries the not-found/no-access markers, and to
500 otherwise. -/
def reprocessDocumentHandler (d : DocumentRecord)
    (pdfMarkdown : Except String String) : ReprocessResult :=
  if d.processingStatus = ProcStatus.processing then
    { httpStatus := 400, document := d, extractionRuns := 0 }
  else
    match parseAndConvertDocument d pdfMarkdown with
    | (d1, Except.ok _) => { httpStatus := 200, document := d1, extractionRuns := 1 }
    | (d1, Except.error msg) =>
      { httpStatus :=
          if strHasSub msg "不存在" || strHasSub msg "无权访问" then 404 else 500
        document := d1
        extractionRuns := 1 }

/-- Embedding of the soft delete performed by
`DocumentService.deleteDocument` via `document.softDelete()` (part_011
of the source, lines 171-174): it only flips `isDeleted`, so it never
moves a `failed` record to `processing`. -/
def softDeleteDocument (d : DocumentRecord) : DocumentRecord :=
  { d with isDeleted := true }

/-- Outcomes of the three LLM-backed calls an annotation run makes. -/
structure AIOutcomes where
  restructure : Except String String
  summary : Except String Unit
  concepts : Except String Unit
deriving DecidableEq

/-- Observable effects of one annotation run. -/
structure AIFeaturesRun where
  restructuredWritten : Option String
  summaryAttempted : Bool
  conceptsAttempted : Bool
  summaryPersisted : Bool
  conceptsPersisted : Bool
  raisedInBackground : Bool
  surfacedToUploadCaller : Bool
deriving DecidableEq

/-- Embedding of `FileExtractService.processAIFeatures`
(src/services/FileExtractService.js, lines 104-140) together with the
fire-and-forget `.catch` its caller attaches (line 46): when the
document is missing or the awaited restructure call rejects, the
function rethrows before the summary/concept stage, so neither is
attempted; otherwise the restructured content is written first and the
summary and concept tasks then run side by side under
`Promise.allSettled`, each persisting exactly when its own call
succeeds and each rejection only logged. The background rejection never
reaches the upload caller. -/
def processAIFeatures (documentFound : Bool) (ai : AIOutcomes) : AIFeaturesRun :=
  if !documentFound then
    { restructuredWritten := none
      summaryAttempted := false
      conceptsAttempted := false
      summaryPersisted := false
      conceptsPersisted := false
      raisedInBackground := true
      surfacedToUploadCaller := false }
  else
    match ai.restructure with
    | Except.error _ =>
      { restructuredWritten := none
        summaryAttempted := false
        conceptsAttempted := false
        summaryPersisted := false
        conceptsPersisted := false
        raisedInBackground := true
        surfacedToUploadCaller := false }
    | Except.ok rc =>
      { restructuredWritten := some rc
        summaryAttempted := true
        conceptsAttempted := true
        summaryPersisted := ai.summary.isOk
        conceptsPersisted := ai.concepts.isOk
        raisedInBackground := false
        surfacedToUploadCaller := false }

/-- A Summary row as the claims observe it. -/
structure SummaryRow where
  documentId : Nat
  userId : Nat
  summaryType : String
  content : String
deriving DecidableEq

/-- Is the compound key (documentId, type) already present? -/
def summaryKeyTaken (store : List SummaryRow) (docId : Nat) (stype : String) : Bool :=
  store.any (fun r => r.documentId == docId && r.summaryType == stype)

/-- Saving a new Summary row under the unique compound index
`{ documentId: 1, type: 1 }, { unique: true }` of the schema
(src/models/Summary.js, line 73): a duplicate key is a save error. -/
def saveSummary (store : List SummaryRow) (row : SummaryRow) :
    Except String (List SummaryRow) :=
  if summaryKeyTaken store row.documentId row.summaryType then
    Except.error "E11000 duplicate key"
  else Except.ok (store ++ [row])

/-- Embedding of `FileExtractService.generateAndSaveSummary`
(src/services/FileExtractService.js, lines 145-171): generate, then
construct a brand-new Summary row of type `ai_generated` and save it,
wrapping generation and save failures alike in the 摘要生成失败
message. The function never looks up or updates an existing row. -/
def generateAndSaveSummary (store : List SummaryRow) (docId uid : Nat)
    (generated : Except String String) : Except String (List SummaryRow) :=
  match generated with
  | Except.error e => Except.error ("摘要生成失败: " ++ e)
  | Except.ok content =>
    match saveSummary store
        { documentId := docId, userId := uid, summaryType := "ai_generated",
          content := content } with
    | Except.error e => Except.error ("摘要生成失败: " ++ e)
    | Except.ok s => Except.ok s

/-- At most one row per (documentId, type) pair across the store. -/
def summariesUnique : List SummaryRow → Bool
  | [] => true
  | r :: rest => !(summaryKeyTaken rest r.documentId r.summaryType) && summariesUnique rest

/-- An occurrence entry of a Concept row (position, context snippet,
confidence; the confidence float is modelled as a rational). -/
structure Occurrence where
  position : Nat
  context : String
  confidence : Rat
deriving DecidableEq

/-- A concept as the AI returns it to `extractAndSaveConcepts`. -/
structure ConceptData where
  term : String
  definition : String
  category : String
  importance : Nat
  occurrences : List Occurrence
deriving DecidableEq

/-- A Concept row as persisted. -/
structure ConceptRow where
  term : String
  definition : String
  documentId : Nat
  userId : Nat
  category : String
  importance : Nat
  occurrences : List Occurrence
deriving DecidableEq

/-- The compound key test of the unique index
`{ documentId: 1, term: 1 }, { unique: true }`
(src/models/Concept.js, line 117). -/
def sameConceptKey (docId : Nat) (term : String) (r : ConceptRow) : Bool :=
  r.documentId == docId && r.term == term

/-- Update the first stored occurrence at the given position in place. -/
def updateFirstOccurrence : List Occurrence → Occurrence → List Occurrence
  | [], _ => []
  | e :: rest, o =>
    if e.position == o.position then
      { e with context := o.context, confidence := o.confidence } :: rest
    else e :: updateFirstOccurrence rest o

/-- Embedding of `conceptSchema.methods.addOccurrence`
(src/models/Concept.js, lines 134-144): an occurrence at an existing
position overwrites that entry's context and confidence; a new position
is appended. -/
def addOccurrence (occs : List Occurrence) (o : Occurrence) : List Occurrence :=
  if occs.any (fun e => e.position == o.position) then updateFirstOccurrence occs o
  else occs ++ [o]

/-- The loop of the update branch of `extractAndSaveConcepts`: each new
occurrence is merged through `addOccurrence`. -/
def mergeOccurrences (occs : List Occurrence) (news : List Occurrence) : List Occurrence :=
  news.foldl addOccurrence occs

/-- Replace the first row matching the predicate (the mongoose save of
the fetched-and-mutated document). -/
def replaceFirstConcept : List ConceptRow → (ConceptRow → Bool) → ConceptRow → List ConceptRow
  | [], _, _ => []
  | r :: rest, p, nr => if p r then nr :: rest else r :: replaceFirstConcept rest p nr

/-- One iteration of the loop of
`FileExtractService.extractAndSaveConcepts`
(src/services/FileExtractService.js, lines 185-231): look the
(documentId, term) key up; when found, update definition, category and
importance and merge the occurrences into the existing row; when
absent, insert a brand-new row, whose save is checked against the
unique compound index. -/
def saveOneConcept (store : List ConceptRow) (docId uid : Nat) (cd : ConceptData) :
    Except String (List ConceptRow) :=
  match store.find? (sameConceptKey docId cd.term) with
  | some row =>
    Except.ok (replaceFirstConcept store (sameConceptKey docId cd.term)
      { row with
        definition := cd.definition
        category := cd.category
        importance := cd.importance
        occurrences := mergeOccurrences row.occurrences cd.occurrences })
  | none =>
    if store.any (sameConceptKey docId cd.term) then Except.error "E11000 duplicate key"
    else
      Except.ok (store ++
        [{ term := cd.term, definition := cd.definition, documentId := docId, userId := uid,
           category := cd.category, importance := cd.importance, occurrences := cd.occurrences }])

/-- The loop of `extractAndSaveConcepts` over the AI's concept list. -/
def saveConceptList (docId uid : Nat) :
    List ConceptRow → List ConceptData → Except String (List ConceptRow)
  | store, [] => Except.ok store
  | store, cd :: rest =>
    match saveOneConcept store docId uid cd with
    | Except.error e => Except.error e
    | Except.ok s => saveConceptList docId uid s rest

/-- Embedding of `FileExtractService.extractAndSaveConcepts`
(src/services/FileExtractService.js, lines 176-237): the AI call's
failure, or any save failure, is wrapped in the 概念提取失败 message;
otherwise every returned concept is upserted in order. -/
def extractAndSaveConcepts (store : List ConceptRow) (docId uid : Nat)
    (ai : Except String (List ConceptData)) : Except String (List ConceptRow) :=
  match ai with
  | Except.error e => Except.error ("概念提取失败: " ++ e)
  | Except.ok cds =>
    match saveConceptList docId uid store cds with
    | Except.error e => Except.error ("概念提取失败: " ++ e)
    | Except.ok s => Except.ok s

/-- At most one row per (documentId, term) pair across the store. -/
def conceptsUnique : List ConceptRow → Bool
  | [] => true
  | r :: rest => !(rest.any (sameConceptKey r.documentId r.term)) && conceptsUnique rest

/-- Number of rows carrying a given (documentId, term) key. -/
def countConceptKey (store : List ConceptRow) (docId : Nat) (term : String) : Nat :=
  (store.filter (sameConceptKey docId term)).length

/-- A concrete concept submission. -/
def sampleConceptA : ConceptData :=
  { term := "熵", definition := "热力学量", category := "concept", importance := 5,
    occurrences := [{ position := 10, context := "熵增原理", confidence := 1 }] }

/-- A second submission of the same term with new content. -/
def sampleConceptB : ConceptData :=
  { term := "熵", definition := "更新后的定义", category := "theory", importance := 4,
    occurrences := [{ position := 10, context := "新上下文", confidence := 1 },
                    { position := 25, context := "第二处出现", confidence := 1 }] }

/-- The MIME types the upload route's multer fileFilter accepts
(src/routes/documents.js, lines 19-42). -/
def multerAllowedMimeTypes : List String :=
  ["application/pdf", docxMime, "application/msword", pptxMime,
   "application/vnd.ms-powerpoint", "image/jpeg", "image/jpg", "image/png",
   "image/gif", "image/bmp", "image/webp", "text/plain"]

/-- Does the multer fileFilter admit the upload? -/
def multerFileFilterAccepts (mime : String) : Bool :=
  multerAllowedMimeTypes.contains mime

/-- The MIME types part_013's DocumentService accepts in `_validateFile`
via its `supportedFormats` table (part_013 of the source, lines 33-40). -/
def part013SupportedMimes : List String :=
  ["application/pdf", docxMime, "application/msword", "text/plain",
   "image/jpeg", "image/png"]

/-- Embedding of `DocumentService._getFormatFromMimeType` (part_013 of
the source, lines 403-413). -/
def getFormatFromMimeType (mime : String) : String :=
  if mime = "application/pdf" then "pdf"
  else if mime = docxMime then "docx"
  else if mime = "application/msword" then "doc"
  else if mime = "text/plain" then "txt"
  else if mime = "image/jpeg" then "jpg"
  else if mime = "image/png" then "png"
  else "unknown"

/-- The `originalFormat` enum of the Document schema (part_011 of the
source, lines 16-21). -/
def originalFormatEnum : List String :=
  ["pdf", "docx", "pptx", "image", "url"]

/-- Creating the record in part_013's `uploadDocument` (lines 62-80)
sets `originalFormat := _getFormatFromMimeType(mimetype)`; the save
validates that value against the schema enum, so creation succeeds only
when the mapped format belongs to the enum. -/
def part013CreateDocumentFormatOk (mime : String) : Bool :=
  originalFormatEnum.contains (getFormatFromMimeType mime)

/-- Claim C7, counterexample: the line `HELLO` preceded by a blank line
but followed by a non-blank line is promoted to a heading by
`isPotentialTitle`, although it satisfies none of the four conditions
of the claim — in particular it is not flanked by blank lines on both
sides, which the claim requires for the all-capitals rule. -/
theorem isPotentialTitle_claim_false :
    isPotentialTitle "HELLO" ["", "HELLO", "world"] 1 = true ∧
      specHeadingClaim "HELLO" ["", "HELLO", "world"] 1 = false := by
  decide

/-- Claim C7, amended: a line is promoted to a heading exactly when it
is non-blank after trimming, at most 100 characters long, and satisfies
at least one of — it has no lower-case form change and contains an
ASCII capital letter and is preceded by a blank line (or starts the
document); it starts with digits followed by a dot or whitespace; it
contains a chapter/section keyword and is shorter than 50 characters;
or it is flanked by blank lines on both sides and shorter than 80
characters. -/
theorem isPotentialTitle_eq_amended :
    ∀ (line : String) (lines : List String) (index : Nat),
      isPotentialTitle line lines index = specHeadingAmended line lines index := by
  intro line lines index
  unfold isPotentialTitle specHeadingAmended
  by_cases h1 : jsTrim line = ""
  · simp [h1]
  · by_cases h2 : (100 : Nat) < jsLen line
    · simp [h1, h2, Nat.not_le.mpr h2]
    · simp [h1, h2, Nat.le_of_not_lt h2]

/-- Claim C8, counterexample: the uncued line `Hello`, positioned past
the first tenth of a ten-line document, gets level 2 from
`determineTitleLevel` because it is shorter than 30 characters, while
the claim's rules — which have no short-line case — assign level 3. -/
theorem determineTitleLevel_claim_false :
    determineTitleLevel "Hello" ["a", "b", "c", "d", "e", "f", "g", "h", "i", "j"] 5 = 2 ∧
      specLevelClaim "Hello" ["a", "b", "c", "d", "e", "f", "g", "h", "i", "j"] 5 = 3 := by
  decide

/-- Claim C8, amended: the heading level is determined by the claim's
rules in their stated order, with one additional rule the claim omits:
after the positional rule fails, a line shorter than 30 characters gets
level 2, and only the remaining headings default to level 3. -/
theorem determineTitleLevel_eq_amended :
    ∀ (line : String) (lines : List String) (index : Nat),
      determineTitleLevel line lines index = specLevelAmended line lines index := by
  intro line lines index
  unfold determineTitleLevel specLevelAmended headingCue
  split
  · rfl
  · split
    · rfl
    · split
      · split <;> rfl
      · split
        · rfl
        · split
          · rfl
          · split
            · rfl
            · split <;> rfl

/-- The first element kept by `dropWhile` fails the predicate. -/
theorem dropWhile_cons_false {α : Type} (p : α → Bool) :
    ∀ (cs : List α) (a : α) (t : List α), cs.dropWhile p = a :: t → p a = false := by
  intro cs
  induction cs with
  | nil => intro a t h; simp [List.dropWhile] at h
  | cons c cs' ih =>
    intro a t h
    by_cases hpc : p c = true
    · rw [List.dropWhile_cons_of_pos hpc] at h
      exact ih a t h
    · rw [List.dropWhile_cons_of_neg hpc] at h
      injection h with h1 h2
      rw [← h1]
      exact Bool.eq_false_iff.mpr hpc

/-- Trimming is idempotent: needed because the mindmap loop trims each
line before handing it to `isValidMindmapNode`, which trims again. -/
theorem jsTrim_idem (s : String) : jsTrim (jsTrim s) = jsTrim s := by
  unfold jsTrim
  have htoList :
      (String.mk (List.rdropWhile isSpaceChar (s.toList.dropWhile isSpaceChar))).toList
        = List.rdropWhile isSpaceChar (s.toList.dropWhile isSpaceChar) := rfl
  rw [htoList]
  have hdrop :
      (List.rdropWhile isSpaceChar (s.toList.dropWhile isSpaceChar)).dropWhile isSpaceChar
        = List.rdropWhile isSpaceChar (s.toList.dropWhile isSpaceChar) := by
    obtain ⟨r, hr⟩ := List.rdropWhile_prefix isSpaceChar (s.toList.dropWhile isSpaceChar)
    cases hrd : List.rdropWhile isSpaceChar (s.toList.dropWhile isSpaceChar) with
    | nil => rfl
    | cons a t =>
      rw [hrd] at hr
      have hdw : s.toList.dropWhile isSpaceChar = a :: (t ++ r) := by
        rw [← hr]; rfl
      have ha := dropWhile_cons_false isSpaceChar s.toList a (t ++ r) hdw
      rw [List.dropWhile_cons_of_neg (by rw [ha]; exact Bool.false_ne_true)]
  rw [hdrop, List.rdropWhile_idempotent]

/-- Pointwise-equal predicates give equal `List.all` results. -/
theorem list_all_congr {α : Type} {f g : α → Bool} :
    ∀ (l : List α), (∀ x ∈ l, f x = g x) → l.all f = l.all g := by
  intro l
  induction l with
  | nil => intro _; rfl
  | cons a t ih =>
    intro h
    simp only [List.all_cons]
    rw [h a (List.mem_cons_self a t), ih (fun x hx => h x (List.mem_cons_of_mem a hx))]

/-- Claim C9, counterexample: the single-line diagram `graph TD`
declares a recognized non-mindmap type, so the claim's rule marks it
valid, but `validateMermaidSyntax` rejects every diagram with fewer
than two non-blank lines. -/
theorem validateMermaidSyntax_claim_false :
    validateMermaidSyntax "graph TD" = false ∧ specDiagramClaim "graph TD" = true := by
  decide

/-- Claim C9, amended: the validator accepts a diagram exactly when it
has at least two non-blank lines, its first non-blank line starts with
one of the fixed diagram types, and — when that type is the mindmap
type — no subsequent non-blank line contains an angle bracket, brace,
square bracket, parenthesis or pipe; consistency of indentation is not
checked. The claim's three concrete examples are unaffected. -/
theorem validateMermaidSyntax_eq_amended :
    ∀ code : String, validateMermaidSyntax code = specDiagramAmended code := by
  intro code
  unfold validateMermaidSyntax specDiagramAmended
  cases h : nonBlankLines code with
  | nil => rfl
  | cons first rest =>
    have hmem : ∀ l ∈ rest, (jsTrim l != "") = true := by
      intro l hl
      have hmem2 : l ∈ nonBlankLines code := by
        rw [h]
        exact List.mem_cons_of_mem first hl
      exact (List.mem_filter.mp hmem2).2
    have hall :
        rest.all (fun l => isValidMindmapNode (jsTrim l))
          = rest.all (fun l => mindmapBadChars.all (fun c => !((jsTrim l).toList.contains c))) := by
      apply list_all_congr
      intro l hl
      simp only [isValidMindmapNode, jsTrim_idem, hmem l hl, Bool.true_and]
    simp only [hall]
    cases rest with
    | nil =>
      cases hA : mermaidValidTypes.any (fun t => strStarts (jsTrim first) t) <;>
        cases hM : strStarts (jsTrim first) "mindmap" <;>
          simp [hA, hM]
    | cons b t =>
      have hnlt : ¬ ((first :: b :: t).length < 2) := by
        simp only [List.length_cons]
        omega
      have hge : (2 ≤ (first :: b :: t).length) := by
        simp only [List.length_cons]
        omega
      cases hA : mermaidValidTypes.any (fun t2 => strStarts (jsTrim first) t2) <;>
        cases hM : strStarts (jsTrim first) "mindmap" <;>
          cases hB : (b :: t).all
              (fun l => mindmapBadChars.all (fun c => !((jsTrim l).toList.contains c))) <;>
            simp [hA, hM, hB, hnlt, hge]

/-- Claim C1, counterexample: a fresh record satisfies the invariant,
but `extractToMarkdown` succeeding on an empty text/plain upload
produces a `completed` record with empty `markdownContent`, and
`updateProcessingStatus('failed')` with no error argument produces a
`failed` record with null `processingError` — both violating the
invariant the claim says every mutation preserves. -/
theorem documentInvariant_claim_false :
    documentInvariant freshDocument ∧
      ¬ documentInvariant
        (extractToMarkdownUpdate freshDocument
          (fileExtractOutcome "text/plain" "" (Except.error "unused"))) ∧
      ¬ documentInvariant
        (updateProcessingStatus freshDocument ProcStatus.failed none) := by
  decide

/-- Claim C1, amended: a single `extractToMarkdown` run on a fresh
record yields a record satisfying the invariant exactly when the run
does not succeed with empty extracted content; the mutating operations
do not preserve the invariant in general, since the success path leaves
`processingError` unchanged, the failure path leaves `markdownContent`
unchanged, and `updateProcessingStatus` nulls `processingError`
whenever its error argument is absent, regardless of the status. -/
theorem extractToMarkdown_invariant_iff :
    ∀ outcome : Except String String,
      documentInvariant (extractToMarkdownUpdate freshDocument outcome) ↔
        outcome ≠ Except.ok "" := by
  intro o
  cases o with
  | ok c =>
    simp [documentInvariant, extractToMarkdownUpdate, freshDocument]
  | error m =>
    simp [documentInvariant, extractToMarkdownUpdate, freshDocument]

/-- Witness for the amended C1 theorem at a failing extraction. -/
theorem extractToMarkdown_invariant_iff_witness :
    documentInvariant (extractToMarkdownUpdate freshDocument (Except.error "PDF解析失败: x")) :=
  (extractToMarkdown_invariant_iff (Except.error "PDF解析失败: x")).mpr (by decide)

/-- Claim C2, counterexample: uploading a valid PDF whose extraction
succeeds answers 201 with a record already in status `completed` and
with the extracted markdown already stored — the record is never
observable in status `pending`, and the handler has waited for the
whole extraction rather than returning while it runs. -/
theorem uploadDocument_claim_false :
    (uploadDocumentHandler pdfFile (Except.ok "# T\n\nbody")).status = 201 ∧
      ((uploadDocumentHandler pdfFile (Except.ok "# T\n\nbody")).document.map
        DocumentRecord.processingStatus) = some ProcStatus.completed ∧
      ((uploadDocumentHandler pdfFile (Except.ok "# T\n\nbody")).document.map
        DocumentRecord.markdownContent) = some "# T\n\nbody" ∧
      ProcStatus.completed ≠ ProcStatus.pending := by
  decide

/-- Claim C2, amended: for every upload that passes validation the
handler answers 201, but only after synchronously running the whole
extraction: the record is created in status `processing` and the
response carries it already in a terminal status — `completed` when the
extraction succeeded, `failed` otherwise — while the response body's
separate hardcoded `processingStatus` field still reads `pending`.
Extraction is not a fire-and-forget background task on this path. -/
theorem uploadDocument_synchronous :
    ∀ (file : UploadFile) (pdfMarkdown : Except String String),
      (validateFile file).isValid = true →
      (uploadDocumentHandler file pdfMarkdown).status = 201 ∧
      (uploadDocumentHandler file pdfMarkdown).reportedProcessingStatus = some "pending" ∧
      (∀ content, parseExtraction (uploadInitialRecord file) pdfMarkdown = Except.ok content →
        (uploadDocumentHandler file pdfMarkdown).document.map
            DocumentRecord.processingStatus = some ProcStatus.completed ∧
        (uploadDocumentHandler file pdfMarkdown).document.map
            DocumentRecord.markdownContent = some content) ∧
      (∀ msg, parseExtraction (uploadInitialRecord file) pdfMarkdown = Except.error msg →
        (uploadDocumentHandler file pdfMarkdown).document.map
            DocumentRecord.processingStatus = some ProcStatus.failed) ∧
      ((uploadDocumentHandler file pdfMarkdown).document.map
          DocumentRecord.processingStatus = some ProcStatus.completed ∨
        (uploadDocumentHandler file pdfMarkdown).document.map
          DocumentRecord.processingStatus = some ProcStatus.failed) := by
  intro file pdfMarkdown h
  unfold uploadDocumentHandler uploadDocument
  simp only [h, Bool.not_true, Bool.false_eq_true, if_false]
  have hinit :
      updateProcessingStatus (uploadInitialRecord file) ProcStatus.processing none
        = uploadInitialRecord file := rfl
  cases hp : parseExtraction (uploadInitialRecord file) pdfMarkdown with
  | ok content =>
    simp only [parseAndConvertDocument]
    rw [hinit]
    simp [hp, updateProcessingStatus]
  | error msg =>
    simp only [parseAndConvertDocument]
    rw [hinit]
    simp [hp, updateProcessingStatus]

/-- Witness for the amended C2 theorem at a concrete PDF upload whose
extraction fails: the 201 response carries the record already in status
`failed`. -/
theorem uploadDocument_synchronous_witness :
    (uploadDocumentHandler pdfFile (Except.error "PDF解析失败: bad xref")).status = 201 ∧
      (uploadDocumentHandler pdfFile
        (Except.error "PDF解析失败: bad xref")).reportedProcessingStatus = some "pending" ∧
      (uploadDocumentHandler pdfFile (Except.error "PDF解析失败: bad xref")).document.map
        DocumentRecord.processingStatus = some ProcStatus.failed :=
  ⟨(uploadDocument_synchronous pdfFile (Except.error "PDF解析失败: bad xref") (by decide)).1,
   (uploadDocument_synchronous pdfFile (Except.error "PDF解析失败: bad xref") (by decide)).2.1,
   (uploadDocument_synchronous pdfFile (Except.error "PDF解析失败: bad xref") (by decide)).2.2.2.1
     "PDF解析失败: bad xref" (by decide)⟩

/-- Claim C6: the reprocess route answers 400 with no extraction run
when the record is currently `processing`; otherwise it runs the same
extraction exactly once — 200 and a `completed` record when the stored
bytes now parse, a non-200 answer and a `failed` record when they fail
again, with no further attempt either way — and the soft-delete
mutation, the only other write the live routes perform on an existing
record, preserves the status, so `failed → processing` happens only
through this owner-invoked operation. -/
theorem reprocessDocument_spec :
    ∀ (d : DocumentRecord) (pdfMarkdown : Except String String),
      (d.processingStatus = ProcStatus.processing →
        reprocessDocumentHandler d pdfMarkdown =
          { httpStatus := 400, document := d, extractionRuns := 0 }) ∧
      (d.processingStatus ≠ ProcStatus.processing →
        (reprocessDocumentHandler d pdfMarkdown).extractionRuns = 1 ∧
        (((reprocessDocumentHandler d pdfMarkdown).httpStatus = 200 ∧
            (reprocessDocumentHandler d pdfMarkdown).document.processingStatus
              = ProcStatus.completed) ∨
          ((reprocessDocumentHandler d pdfMarkdown).httpStatus ≠ 200 ∧
            (reprocessDocumentHandler d pdfMarkdown).document.processingStatus
              = ProcStatus.failed))) ∧
      (softDeleteDocument d).processingStatus = d.processingStatus := by
  intro d pdfMarkdown
  refine ⟨?_, ?_, rfl⟩
  · intro hproc
    unfold reprocessDocumentHandler
    rw [if_pos hproc]
  · intro hproc
    unfold reprocessDocumentHandler
    rw [if_neg hproc]
    cases hp : parseExtraction
        { title := d.title
          originalFormat := d.originalFormat
          markdownContent := d.markdownContent
          restructuredContent := d.restructuredContent
          processingStatus := ProcStatus.processing
          processingError := none
          metadataUrl := d.metadataUrl
          isDeleted := d.isDeleted } pdfMarkdown with
    | ok content =>
      constructor
      · simp [parseAndConvertDocument, updateProcessingStatus, hp]
      · exact Or.inl (by simp [parseAndConvertDocument, updateProcessingStatus, hp])
    | error msg =>
      constructor
      · simp [parseAndConvertDocument, updateProcessingStatus, hp]
      · refine Or.inr ⟨?_, by simp [parseAndConvertDocument, updateProcessingStatus, hp]⟩
        by_cases hmsg : (strHasSub msg "不存在" || strHasSub msg "无权访问") = true <;>
          simp [parseAndConvertDocument, updateProcessingStatus, hp, hmsg]

/-- Witness for the C6 theorem: reprocessing a concrete `failed` record
whose stored bytes now extract runs exactly one attempt and answers 200
with a `completed` record. -/
theorem reprocessDocument_spec_witness :
    (reprocessDocumentHandler
        { freshDocument with
            processingStatus := ProcStatus.failed
            processingError := some "PDF解析失败: bad xref" }
        (Except.ok "# T\n\nbody")).extractionRuns = 1 :=
  (((reprocessDocument_spec
      { freshDocument with
          processingStatus := ProcStatus.failed
          processingError := some "PDF解析失败: bad xref" }
      (Except.ok "# T\n\nbody")).2.1) (by decide)).1

/-- Claim C4, counterexample: when the restructure call fails while the
summary and concept calls would succeed, neither the summary nor the
concept artifact is even attempted — the restructure failure blocks the
other artifacts instead of being isolated from them, so the annotation
calls are not mutually unordered. -/
theorem processAIFeatures_claim_false :
    (processAIFeatures true
      { restructure := Except.error "文档重构失败: upstream 500"
        summary := Except.ok ()
        concepts := Except.ok () }).summaryAttempted = false ∧
      (processAIFeatures true
        { restructure := Except.error "文档重构失败: upstream 500"
          summary := Except.ok ()
          concepts := Except.ok () }).conceptsAttempted = false := by
  decide

/-- Claim C4, amended: restructuring is awaited first and must succeed
before any other artifact is attempted; once it succeeds, the summary
and concept tasks run concurrently and are mutually isolated — each
persists exactly when its own call succeeds, regardless of the other's
outcome — and no annotation failure, the restructure failure included,
is ever surfaced to the original upload caller. -/
theorem processAIFeatures_spec :
    ∀ ai : AIOutcomes,
      (∀ rc, ai.restructure = Except.ok rc →
        processAIFeatures true ai =
          { restructuredWritten := some rc
            summaryAttempted := true
            conceptsAttempted := true
            summaryPersisted := ai.summary.isOk
            conceptsPersisted := ai.concepts.isOk
            raisedInBackground := false
            surfacedToUploadCaller := false }) ∧
      (∀ e, ai.restructure = Except.error e →
        (processAIFeatures true ai).summaryAttempted = false ∧
        (processAIFeatures true ai).conceptsAttempted = false ∧
        (processAIFeatures true ai).raisedInBackground = true) ∧
      (processAIFeatures true ai).surfacedToUploadCaller = false := by
  intro ai
  refine ⟨?_, ?_, ?_⟩
  · intro rc hrc
    simp [processAIFeatures, hrc]
  · intro e he
    simp [processAIFeatures, he]
  · cases h : ai.restructure <;> simp [processAIFeatures, h]

/-- Witness for the amended C4 theorem at a run whose restructure
succeeds, whose summary persistence succeeds and whose concept
persistence fails. -/
theorem processAIFeatures_spec_witness :
    processAIFeatures true
        { restructure := Except.ok "# 重构"
          summary := Except.ok ()
          concepts := Except.error "概念提取失败: bad json" } =
      { restructuredWritten := some "# 重构"
        summaryAttempted := true
        conceptsAttempted := true
        summaryPersisted := true
        conceptsPersisted := false
        raisedInBackground := false
        surfacedToUploadCaller := false } :=
  ((processAIFeatures_spec
    { restructure := Except.ok "# 重构"
      summary := Except.ok ()
      concepts := Except.error "概念提取失败: bad json" }).1 "# 重构" rfl)

/-- Appending a row with a fresh key preserves key uniqueness. -/
theorem summariesUnique_append (row : SummaryRow) :
    ∀ store : List SummaryRow, summariesUnique store = true →
      summaryKeyTaken store row.documentId row.summaryType = false →
      summariesUnique (store ++ [row]) = true := by
  intro store
  induction store with
  | nil =>
    intro _ _
    simp [summariesUnique, summaryKeyTaken]
  | cons r rest ih =>
    intro h1 h2
    simp [summariesUnique, summaryKeyTaken, List.any_append, beq_iff_eq] at h1 h2 ⊢
    refine ⟨⟨h1.1, ?_⟩, ?_⟩
    · by_cases hd : row.documentId = r.documentId
      · exact Or.inr (fun ht => (h2.1 hd.symm) ht.symm)
      · exact Or.inl hd
    · apply ih h1.2
      simp [summaryKeyTaken, beq_iff_eq]
      exact h2.2

/-- Claim C3, counterexample: generating a summary for a document and
then requesting generation a second time for the same (document, type)
does not update the stored row — the second save violates the unique
(documentId, type) index and the call fails with a duplicate-key
error. -/
theorem summary_regeneration_claim_false :
    generateAndSaveSummary [] 1 1 (Except.ok "第一份摘要") =
      Except.ok
        [{ documentId := 1, userId := 1, summaryType := "ai_generated", content := "第一份摘要" }] ∧
      generateAndSaveSummary
          [{ documentId := 1, userId := 1, summaryType := "ai_generated", content := "第一份摘要" }]
          1 1 (Except.ok "第二份摘要") =
        Except.error "摘要生成失败: E11000 duplicate key" := by
  decide

/-- Claim C3, amended: the unique compound index does enforce at most
one Summary row per (documentId, type), and `generateAndSaveSummary`
preserves that invariant — but because it always inserts a brand-new
row, a second generation for the same (document, type) fails with a
duplicate-key error instead of updating the existing row in place; only
a first generation for a free key appends a row. -/
theorem generateAndSaveSummary_spec :
    ∀ (store : List SummaryRow) (docId uid : Nat) (generated : Except String String),
      summariesUnique store = true →
      (∀ s, generateAndSaveSummary store docId uid generated = Except.ok s →
        summariesUnique s = true) ∧
      (summaryKeyTaken store docId "ai_generated" = true →
        ∀ content, generated = Except.ok content →
          generateAndSaveSummary store docId uid generated =
            Except.error "摘要生成失败: E11000 duplicate key") ∧
      (summaryKeyTaken store docId "ai_generated" = false →
        ∀ content, generated = Except.ok content →
          generateAndSaveSummary store docId uid generated =
            Except.ok (store ++
              [{ documentId := docId, userId := uid, summaryType := "ai_generated", content := content }])) := by
  intro store docId uid generated hu
  refine ⟨?_, ?_, ?_⟩
  · intro s hs
    cases generated with
    | error e => simp [generateAndSaveSummary] at hs
    | ok content =>
      by_cases hk : summaryKeyTaken store docId "ai_generated" = true
      · simp [generateAndSaveSummary, saveSummary, hk] at hs
      · rw [Bool.not_eq_true] at hk
        simp [generateAndSaveSummary, saveSummary, hk] at hs
        rw [← hs]
        exact summariesUnique_append _ store hu hk
  · intro hk content hc
    subst hc
    simp [generateAndSaveSummary, saveSummary, hk]
  · intro hk content hc
    subst hc
    simp [generateAndSaveSummary, saveSummary, hk]

/-- Witness for the amended C3 theorem: a first generation for a free
key appends exactly one `ai_generated` row. -/
theorem generateAndSaveSummary_spec_witness :
    generateAndSaveSummary [] 2 7 (Except.ok "文档摘要内容") =
      Except.ok
        [{ documentId := 2, userId := 7, summaryType := "ai_generated", content := "文档摘要内容" }] :=
  ((generateAndSaveSummary_spec [] 2 7 (Except.ok "文档摘要内容") (by decide)).2.2
    (by decide) "文档摘要内容" rfl)

theorem replaceFirstConcept_length (p : ConceptRow → Bool) (nr : ConceptRow) :
    ∀ l : List ConceptRow, (replaceFirstConcept l p nr).length = l.length := by
  intro l
  induction l with
  | nil => rfl
  | cons r rest ih =>
    by_cases h : p r = true <;> simp [replaceFirstConcept, h, ih]

theorem sameConceptKey_fields {docId : Nat} {term : String} {r : ConceptRow}
    (h : sameConceptKey docId term r = true) : r.documentId = docId ∧ r.term = term := by
  simpa [sameConceptKey, Bool.and_eq_true, beq_iff_eq] using h

theorem sameConceptKey_congr {r r2 : ConceptRow} (hd : r.documentId = r2.documentId)
    (ht : r.term = r2.term) (d : Nat) (t : String) :
    sameConceptKey d t r = sameConceptKey d t r2 := by
  simp [sameConceptKey, hd, ht]

theorem find?_replaceFirstConcept (p : ConceptRow → Bool) (nr : ConceptRow)
    (hnr : p nr = true) :
    ∀ (l : List ConceptRow) (r0 : ConceptRow), l.find? p = some r0 →
      (replaceFirstConcept l p nr).find? p = some nr := by
  intro l
  induction l with
  | nil => intro r0 h; simp at h
  | cons r rest ih =>
    intro r0 h
    by_cases hr : p r = true
    · simp [replaceFirstConcept, hr, List.find?_cons_of_pos, hnr]
    · rw [List.find?_cons_of_neg _ hr] at h
      simp only [replaceFirstConcept, hr, Bool.false_eq_true, if_false]
      rw [List.find?_cons_of_neg _ hr]
      exact ih r0 h

theorem any_key_replaceFirstConcept (docId : Nat) (term : String) (nr : ConceptRow)
    (hd : nr.documentId = docId) (ht : nr.term = term) (d : Nat) (t : String) :
    ∀ l : List ConceptRow,
      (replaceFirstConcept l (sameConceptKey docId term) nr).any (sameConceptKey d t)
        = l.any (sameConceptKey d t) := by
  intro l
  induction l with
  | nil => rfl
  | cons r rest ih =>
    by_cases hr : sameConceptKey docId term r = true
    · obtain ⟨h1, h2⟩ := sameConceptKey_fields hr
      simp only [replaceFirstConcept, hr, if_true, Bool.true_eq_false, List.any_cons]
      rw [sameConceptKey_congr (hd.trans h1.symm) (ht.trans h2.symm) d t]
    · simp only [replaceFirstConcept, hr, Bool.false_eq_true, if_false, List.any_cons, ih]

theorem conceptsUnique_replaceFirst (docId : Nat) (term : String) (nr : ConceptRow)
    (hd : nr.documentId = docId) (ht : nr.term = term) :
    ∀ l : List ConceptRow, conceptsUnique l = true →
      conceptsUnique (replaceFirstConcept l (sameConceptKey docId term) nr) = true := by
  intro l
  induction l with
  | nil => intro _; rfl
  | cons r rest ih =>
    intro h
    simp only [conceptsUnique, Bool.and_eq_true, Bool.not_eq_true'] at h
    by_cases hr : sameConceptKey docId term r = true
    · obtain ⟨h1, h2⟩ := sameConceptKey_fields hr
      simp only [replaceFirstConcept, hr, if_true, Bool.true_eq_false, conceptsUnique, Bool.and_eq_true,
        Bool.not_eq_true']
      refine ⟨?_, h.2⟩
      have hany :
          rest.any (sameConceptKey nr.documentId nr.term)
            = rest.any (sameConceptKey r.documentId r.term) := by
        rw [hd, ht, h1, h2]
      rw [hany]
      exact h.1
    · simp only [replaceFirstConcept, hr, Bool.false_eq_true, if_false, conceptsUnique,
        Bool.and_eq_true, Bool.not_eq_true']
      refine ⟨?_, ih h.2⟩
      rw [any_key_replaceFirstConcept docId term nr hd ht r.documentId r.term rest]
      exact h.1

theorem count_key_replaceFirst (docId : Nat) (term : String) (nr : ConceptRow)
    (hd : nr.documentId = docId) (ht : nr.term = term) (d : Nat) (t : String) :
    ∀ l : List ConceptRow,
      countConceptKey (replaceFirstConcept l (sameConceptKey docId term) nr) d t
        = countConceptKey l d t := by
  intro l
  induction l with
  | nil => rfl
  | cons r rest ih =>
    have ih2 :
        (List.filter (sameConceptKey d t)
          (replaceFirstConcept rest (sameConceptKey docId term) nr)).length
          = (List.filter (sameConceptKey d t) rest).length := ih
    by_cases hr : sameConceptKey docId term r = true
    · obtain ⟨h1, h2⟩ := sameConceptKey_fields hr
      have hkey : sameConceptKey d t nr = sameConceptKey d t r :=
        sameConceptKey_congr (hd.trans h1.symm) (ht.trans h2.symm) d t
      by_cases hq : sameConceptKey d t r = true <;>
        simp [replaceFirstConcept, hr, countConceptKey, List.filter_cons, hkey, hq]
    · by_cases hq : sameConceptKey d t r = true <;>
        simp [replaceFirstConcept, hr, countConceptKey, List.filter_cons, hq, ih2]

theorem count_one_of_find (docId : Nat) (term : String) :
    ∀ (l : List ConceptRow) (r0 : ConceptRow), conceptsUnique l = true →
      l.find? (sameConceptKey docId term) = some r0 →
      countConceptKey l docId term = 1 := by
  intro l
  induction l with
  | nil => intro r0 _ h; simp at h
  | cons r rest ih =>
    intro r0 hu h
    simp only [conceptsUnique, Bool.and_eq_true, Bool.not_eq_true'] at hu
    by_cases hr : sameConceptKey docId term r = true
    · obtain ⟨h1, h2⟩ := sameConceptKey_fields hr
      have hnone : rest.any (sameConceptKey docId term) = false := by
        rw [← h1, ← h2]
        exact hu.1
      have hfil : List.filter (sameConceptKey docId term) rest = [] := by
        rw [List.filter_eq_nil_iff]
        intro a ha
        intro hpa
        have := List.any_eq_true.mpr ⟨a, ha, hpa⟩
        rw [hnone] at this
        cases this
      simp [countConceptKey, List.filter_cons, hr, hfil]
    · rw [List.find?_cons_of_neg _ hr] at h
      have := ih r0 hu.2 h
      simpa [countConceptKey, List.filter_cons, hr] using this

theorem countConceptKey_zero_of_find_none (docId : Nat) (term : String)
    (l : List ConceptRow) (h : l.find? (sameConceptKey docId term) = none) :
    countConceptKey l docId term = 0 := by
  have hall := List.find?_eq_none.mp h
  simp only [countConceptKey, List.length_eq_zero, List.filter_eq_nil_iff]
  intro a ha
  exact hall a ha

theorem conceptsUnique_append (row : ConceptRow) :
    ∀ l : List ConceptRow, conceptsUnique l = true →
      l.any (sameConceptKey row.documentId row.term) = false →
      conceptsUnique (l ++ [row]) = true := by
  intro l
  induction l with
  | nil =>
    intro _ _
    rfl
  | cons r rest ih =>
    intro h1 h2
    simp only [conceptsUnique, Bool.and_eq_true, Bool.not_eq_true'] at h1
    simp only [List.any_cons, Bool.or_eq_false_iff] at h2
    simp only [List.cons_append, conceptsUnique, Bool.and_eq_true, Bool.not_eq_true']
    refine ⟨?_, ih h1.2 h2.2⟩
    simp only [List.append_eq, List.any_append, List.any_cons, List.any_nil,
      Bool.or_eq_false_iff]
    refine ⟨h1.1, ?_, trivial⟩
    simp only [sameConceptKey, Bool.and_eq_false_iff, beq_eq_false_iff_ne, ne_eq] at h2 ⊢
    rcases h2.1 with hd | ht
    · exact Or.inl (fun hx => hd hx.symm)
    · exact Or.inr (fun hx => ht hx.symm)

theorem find?_append_last (p : ConceptRow → Bool) (a : ConceptRow) (ha : p a = true) :
    ∀ l : List ConceptRow, l.find? p = none → (l ++ [a]).find? p = some a := by
  intro l
  induction l with
  | nil => intro _; simp [List.find?_cons_of_pos, ha]
  | cons r rest ih =>
    intro h
    have hr : ¬ p r = true := by
      intro hpr
      rw [List.find?_cons_of_pos _ hpr] at h
      cases h
    rw [List.find?_cons_of_neg _ hr] at h
    rw [List.cons_append, List.find?_cons_of_neg _ hr]
    exact ih h

theorem extract_singleton (store : List ConceptRow) (docId uid : Nat) (cd : ConceptData)
    (s : List ConceptRow) (h : saveOneConcept store docId uid cd = Except.ok s) :
    extractAndSaveConcepts store docId uid (Except.ok [cd]) = Except.ok s := by
  simp [extractAndSaveConcepts, saveConceptList, h]

theorem first_upsert (store : List ConceptRow) (docId uid : Nat) (cd : ConceptData)
    (hu : conceptsUnique store = true) :
    ∃ (s1 : List ConceptRow) (row1 : ConceptRow),
      saveOneConcept store docId uid cd = Except.ok s1 ∧
      s1.find? (sameConceptKey docId cd.term) = some row1 ∧
      conceptsUnique s1 = true := by
  cases hf : store.find? (sameConceptKey docId cd.term) with
  | some row0 =>
    have hp0 : sameConceptKey docId cd.term row0 = true := List.find?_some hf
    obtain ⟨hp0d, hp0t⟩ := sameConceptKey_fields hp0
    refine ⟨replaceFirstConcept store (sameConceptKey docId cd.term)
      { row0 with
        definition := cd.definition
        category := cd.category
        importance := cd.importance
        occurrences := mergeOccurrences row0.occurrences cd.occurrences },
      { row0 with
        definition := cd.definition
        category := cd.category
        importance := cd.importance
        occurrences := mergeOccurrences row0.occurrences cd.occurrences }, ?_, ?_, ?_⟩
    · simp [saveOneConcept, hf]
    · exact find?_replaceFirstConcept (sameConceptKey docId cd.term)
        { row0 with
          definition := cd.definition
          category := cd.category
          importance := cd.importance
          occurrences := mergeOccurrences row0.occurrences cd.occurrences } hp0 store row0 hf
    · exact conceptsUnique_replaceFirst docId cd.term
        { row0 with
          definition := cd.definition
          category := cd.category
          importance := cd.importance
          occurrences := mergeOccurrences row0.occurrences cd.occurrences } hp0d hp0t store hu
  | none =>
    have hany : store.any (sameConceptKey docId cd.term) = false := by
      by_contra hx
      rw [Bool.not_eq_false] at hx
      obtain ⟨a, ha, hpa⟩ := List.any_eq_true.mp hx
      exact (List.find?_eq_none.mp hf) a ha hpa
    refine ⟨store ++
      [{ term := cd.term, definition := cd.definition, documentId := docId, userId := uid,
         category := cd.category, importance := cd.importance,
         occurrences := cd.occurrences }],
      { term := cd.term, definition := cd.definition, documentId := docId, userId := uid,
        category := cd.category, importance := cd.importance,
        occurrences := cd.occurrences }, ?_, ?_, ?_⟩
    · simp [saveOneConcept, hf, hany]
    · exact find?_append_last _
        { term := cd.term, definition := cd.definition, documentId := docId, userId := uid,
          category := cd.category, importance := cd.importance,
          occurrences := cd.occurrences } (by simp [sameConceptKey]) store hf
    · exact conceptsUnique_append
        { term := cd.term, definition := cd.definition, documentId := docId, userId := uid,
          category := cd.category, importance := cd.importance,
          occurrences := cd.occurrences } store hu hany

theorem second_upsert (docId uid : Nat) (cd2 : ConceptData) (s1 : List ConceptRow)
    (row1 : ConceptRow) (hu1 : conceptsUnique s1 = true)
    (hfind1 : s1.find? (sameConceptKey docId cd2.term) = some row1) :
    ∃ s2 : List ConceptRow,
      saveOneConcept s1 docId uid cd2 = Except.ok s2 ∧
      conceptsUnique s2 = true ∧
      countConceptKey s2 docId cd2.term = 1 ∧
      s2.length = s1.length ∧
      s2.find? (sameConceptKey docId cd2.term) =
        some { row1 with
               definition := cd2.definition
               category := cd2.category
               importance := cd2.importance
               occurrences := mergeOccurrences row1.occurrences cd2.occurrences } := by
  have hp1 : sameConceptKey docId cd2.term row1 = true := List.find?_some hfind1
  obtain ⟨hpd, hpt⟩ := sameConceptKey_fields hp1
  refine ⟨replaceFirstConcept s1 (sameConceptKey docId cd2.term)
    { row1 with
      definition := cd2.definition
      category := cd2.category
      importance := cd2.importance
      occurrences := mergeOccurrences row1.occurrences cd2.occurrences }, ?_, ?_, ?_, ?_, ?_⟩
  · simp [saveOneConcept, hfind1]
  · exact conceptsUnique_replaceFirst docId cd2.term
      { row1 with
        definition := cd2.definition
        category := cd2.category
        importance := cd2.importance
        occurrences := mergeOccurrences row1.occurrences cd2.occurrences } hpd hpt s1 hu1
  · rw [count_key_replaceFirst docId cd2.term
      { row1 with
        definition := cd2.definition
        category := cd2.category
        importance := cd2.importance
        occurrences := mergeOccurrences row1.occurrences cd2.occurrences } hpd hpt
      docId cd2.term s1]
    exact count_one_of_find docId cd2.term s1 row1 hu1 hfind1
  · exact replaceFirstConcept_length _ _ s1
  · exact find?_replaceFirstConcept (sameConceptKey docId cd2.term)
      { row1 with
        definition := cd2.definition
        category := cd2.category
        importance := cd2.importance
        occurrences := mergeOccurrences row1.occurrences cd2.occurrences } hp1 s1 row1 hfind1

/-- Claim C5: starting from any store satisfying the unique (documentId,
term) invariant, persisting a concept and then persisting a concept
with the same term again always succeeds and yields exactly one row for
that key: the store keeps its size, keeps the uniqueness invariant, and
the stored row now carries the second submission's definition, category
and importance, with the second submission's occurrences merged into
the stored occurrence list through `addOccurrence`. -/
theorem concept_upsert_spec :
    ∀ (store : List ConceptRow) (docId uid : Nat) (cd cd2 : ConceptData),
      conceptsUnique store = true →
      cd2.term = cd.term →
      ∃ (s1 s2 : List ConceptRow) (row1 : ConceptRow),
        extractAndSaveConcepts store docId uid (Except.ok [cd]) = Except.ok s1 ∧
        extractAndSaveConcepts s1 docId uid (Except.ok [cd2]) = Except.ok s2 ∧
        s1.find? (sameConceptKey docId cd.term) = some row1 ∧
        conceptsUnique s1 = true ∧
        conceptsUnique s2 = true ∧
        countConceptKey s2 docId cd.term = 1 ∧
        s2.length = s1.length ∧
        s2.find? (sameConceptKey docId cd.term) =
          some { row1 with
                 definition := cd2.definition
                 category := cd2.category
                 importance := cd2.importance
                 occurrences := mergeOccurrences row1.occurrences cd2.occurrences } := by
  intro store docId uid cd cd2 hu hterm
  have hkeyeq : sameConceptKey docId cd2.term = sameConceptKey docId cd.term :=
    congrArg (sameConceptKey docId) hterm
  obtain ⟨s1, row1, hs1, hfind1, hu1⟩ := first_upsert store docId uid cd hu
  obtain ⟨s2, hs2, hu2, hcount2, hlen2, hfind2⟩ :=
    second_upsert docId uid cd2 s1 row1 hu1 (by rw [hkeyeq]; exact hfind1)
  refine ⟨s1, s2, row1, extract_singleton store docId uid cd s1 hs1,
    extract_singleton s1 docId uid cd2 s2 hs2, hfind1, hu1, hu2, ?_, hlen2, ?_⟩
  · rw [← hterm]
    exact hcount2
  · rw [← hkeyeq]
    exact hfind2

/-- Witness for the C5 theorem at a concrete double submission. -/
theorem concept_upsert_spec_witness :
    ∃ (s1 s2 : List ConceptRow) (row1 : ConceptRow),
      extractAndSaveConcepts [] 3 4 (Except.ok [sampleConceptA]) = Except.ok s1 ∧
      extractAndSaveConcepts s1 3 4 (Except.ok [sampleConceptB]) = Except.ok s2 ∧
      s1.find? (sameConceptKey 3 sampleConceptA.term) = some row1 ∧
      conceptsUnique s1 = true ∧
      conceptsUnique s2 = true ∧
      countConceptKey s2 3 sampleConceptA.term = 1 ∧
      s2.length = s1.length ∧
      s2.find? (sameConceptKey 3 sampleConceptA.term) =
        some { row1 with
               definition := sampleConceptB.definition
               category := sampleConceptB.category
               importance := sampleConceptB.importance
               occurrences := mergeOccurrences row1.occurrences sampleConceptB.occurrences } :=
  concept_upsert_spec [] 3 4 sampleConceptA sampleConceptB rfl rfl

/-- Claim C10: the text/plain, application/msword, image/jpeg and
image/png MIME types pass the upload route's multer filter and
part_013's own `_validateFile` table, yet `_getFormatFromMimeType` maps
them to `txt`, `doc`, `jpg` and `png`, none of which belongs to the
Document schema's `originalFormat` enum {pdf, docx, pptx, image, url} —
so creating the record always fails schema validation for these
uploads. -/
theorem part013_format_schema_mismatch :
    (multerFileFilterAccepts "text/plain" = true ∧
      part013SupportedMimes.contains "text/plain" = true ∧
      getFormatFromMimeType "text/plain" = "txt" ∧
      part013CreateDocumentFormatOk "text/plain" = false) ∧
    (multerFileFilterAccepts "application/msword" = true ∧
      part013SupportedMimes.contains "application/msword" = true ∧
      getFormatFromMimeType "application/msword" = "doc" ∧
      part013CreateDocumentFormatOk "application/msword" = false) ∧
    (multerFileFilterAccepts "image/jpeg" = true ∧
      part013SupportedMimes.contains "image/jpeg" = true ∧
      getFormatFromMimeType "image/jpeg" = "jpg" ∧
      part013CreateDocumentFormatOk "image/jpeg" = false) ∧
    (multerFileFilterAccepts "image/png" = true ∧
      part013SupportedMimes.contains "image/png" = true ∧
      getFormatFromMimeType "image/png" = "png" ∧
      part013CreateDocumentFormatOk "image/png" = false) := by
  decide
